import Mathlib

/-!
Shallow embedding of `waybar-bluetooth-headphone-battery` (src/main.rs).

Modelling conventions:
* Rust `&str` / `String` are Lean `String`; the Rust iterator `str::split(',')`
  and `str::trim` are re-implemented over `String.data` (`rustSplit`,
  `rustTrim`) so that every definition is kernel-computable.
* `f64` percentages are modelled as `ℚ` (the cycle only compares and copies
  them; no float arithmetic occurs).  Rust's `Display` for `f64` is modelled
  by `fmtF64`, exact on integral values.
* dbus/zbus calls are fallible oracles: a `Device` record carries the result
  (`Except DBusError _`) of each property query the program performs, and the
  enumeration is an `Except DBusError (List Device)`.
* `println!` effects are modelled as a `List Line` of emitted stdout lines,
  in order; a serialized JSON record is `Line.record w`, the bare `println!()`
  is `Line.blank`.
* The tokio `select!` race in `main` is modelled by a `Wake` event naming the
  branch that won each wait; the loop consumes a list of such events.
-/

/-- Rust `str::split(',')`: split at every comma; the empty string yields one
empty token, a trailing comma yields a trailing empty token. -/
def rustSplitGo (cur : List Char) : List Char → List (List Char)
  | [] => [cur.reverse]
  | c :: cs =>
    if c = ',' then cur.reverse :: rustSplitGo [] cs
    else rustSplitGo (c :: cur) cs

/-- Rust `str::split(',')` on a `String`. -/
def rustSplit (s : String) : List String :=
  (rustSplitGo [] s.data).map String.mk

/-- Rust `str::trim`: drop whitespace from both ends (ASCII whitespace model). -/
def rustTrim (s : String) : String :=
  String.mk (((s.data.dropWhile Char.isWhitespace).reverse.dropWhile
    Char.isWhitespace).reverse)

/-- ASCII lower-casing of a string; used only to state case-insensitive
matching as the specification describes it. -/
def asciiLower (s : String) : String :=
  String.mk (s.data.map Char.toLower)

/-- `strum::ParseError`: the single error variant returned by the derived
`EnumString` implementation. -/
inductive ParseError
  | VariantNotFound
deriving DecidableEq, Repr

/-- An opaque dbus-layer error (`zbus::Error` under `anyhow`), distinguished
by a numeric tag so that distinct failures are distinguishable. -/
inductive DBusError
  | err (tag : Nat)
deriving DecidableEq, Repr

/-- The `DeviceKind` enum of src/main.rs: upower's device types, discriminants
0–29, `Unknown` being the `#[default]`. -/
inductive DeviceKind
  | Unknown
  | LinePower
  | Battery
  | Ups
  | Monitor
  | Mouse
  | Keyboard
  | Pda
  | Phone
  | MediaPlayer
  | Tablet
  | Computer
  | GamingInput
  | Pen
  | Touchpad
  | Modem
  | Network
  | Headset
  | Speakers
  | Headphones
  | Video
  | OtherAudio
  | RemoteControl
  | Printer
  | Scanner
  | Camera
  | Wearable
  | Toy
  | Generic
  | Last
deriving DecidableEq, Fintype, Repr

/-- The Rust discriminant of each `DeviceKind` variant (`Unknown = 0` …
`Last = 29`). -/
def DeviceKind.code : DeviceKind → Nat
  | .Unknown => 0
  | .LinePower => 1
  | .Battery => 2
  | .Ups => 3
  | .Monitor => 4
  | .Mouse => 5
  | .Keyboard => 6
  | .Pda => 7
  | .Phone => 8
  | .MediaPlayer => 9
  | .Tablet => 10
  | .Computer => 11
  | .GamingInput => 12
  | .Pen => 13
  | .Touchpad => 14
  | .Modem => 15
  | .Network => 16
  | .Headset => 17
  | .Speakers => 18
  | .Headphones => 19
  | .Video => 20
  | .OtherAudio => 21
  | .RemoteControl => 22
  | .Printer => 23
  | .Scanner => 24
  | .Camera => 25
  | .Wearable => 26
  | .Toy => 27
  | .Generic => 28
  | .Last => 29

/-- The `#[strum(serialize_all = "kebab-case")]` canonical name of each
variant, as produced by the derived `EnumString` / `EnumVariantNames`. -/
def DeviceKind.canonicalName : DeviceKind → String
  | .Unknown => "unknown"
  | .LinePower => "line-power"
  | .Battery => "battery"
  | .Ups => "ups"
  | .Monitor => "monitor"
  | .Mouse => "mouse"
  | .Keyboard => "keyboard"
  | .Pda => "pda"
  | .Phone => "phone"
  | .MediaPlayer => "media-player"
  | .Tablet => "tablet"
  | .Computer => "computer"
  | .GamingInput => "gaming-input"
  | .Pen => "pen"
  | .Touchpad => "touchpad"
  | .Modem => "modem"
  | .Network => "network"
  | .Headset => "headset"
  | .Speakers => "speakers"
  | .Headphones => "headphones"
  | .Video => "video"
  | .OtherAudio => "other-audio"
  | .RemoteControl => "remote-control"
  | .Printer => "printer"
  | .Scanner => "scanner"
  | .Camera => "camera"
  | .Wearable => "wearable"
  | .Toy => "toy"
  | .Generic => "generic"
  | .Last => "last"

/-- All `DeviceKind` variants in declaration (= discriminant) order. -/
def DeviceKind.all : List DeviceKind :=
  [.Unknown, .LinePower, .Battery, .Ups, .Monitor, .Mouse, .Keyboard, .Pda,
   .Phone, .MediaPlayer, .Tablet, .Computer, .GamingInput, .Pen, .Touchpad,
   .Modem, .Network, .Headset, .Speakers, .Headphones, .Video, .OtherAudio,
   .RemoteControl, .Printer, .Scanner, .Camera, .Wearable, .Toy, .Generic,
   .Last]

/-- `num_derive::FromPrimitive`'s `DeviceKind::from_u32`: the variant whose
discriminant equals the code, `none` otherwise. -/
def DeviceKind.fromU32 (n : Nat) : Option DeviceKind :=
  DeviceKind.all.find? (fun k => k.code = n)

/-- `DeviceKind::from_u32(n).unwrap_or_default()` as performed in
`output_devices` (the derived `Default` is `Unknown`). -/
def DeviceKind.fromCode (n : Nat) : DeviceKind :=
  (DeviceKind.fromU32 n).getD DeviceKind.Unknown

/-- The derived (case-sensitive) `strum` `DeviceKind::from_str`: exact match
against the kebab-case canonical name, else `VariantNotFound`. -/
def DeviceKind.fromName (s : String) : Except ParseError DeviceKind :=
  match DeviceKind.all.find? (fun k => k.canonicalName = s) with
  | some k => Except.ok k
  | none => Except.error ParseError.VariantNotFound

/-- `BTreeSet<DeviceKind>::insert`, on the sorted duplicate-free list that
models the btree (ordering = derived `Ord` = discriminant order); inserting
an element already present leaves the set unchanged. -/
def btreeInsert : List DeviceKind → DeviceKind → List DeviceKind
  | [], k => [k]
  | x :: xs, k =>
    if k.code < x.code then k :: x :: xs
    else if k.code = x.code then x :: xs
    else x :: btreeInsert xs k

/-- `DeviceKindSet`: the `BTreeSet<DeviceKind>` wrapper, modelled as its
sorted duplicate-free element list. -/
structure DeviceKindSet where
  kinds : List DeviceKind
deriving DecidableEq, Repr

/-- `DeviceKindSet::contains`. -/
def DeviceKindSet.contains (s : DeviceKindSet) (k : DeviceKind) : Bool :=
  s.kinds.contains k

/-- The token-folding loop of `DeviceKindSet::from_str`: resolve each trimmed
token via `DeviceKind::from_str`, stopping at the first error, inserting
successes into the accumulating set. -/
def fromStrGo (set : List DeviceKind) : List String →
    Except ParseError (List DeviceKind)
  | [] => Except.ok set
  | t :: ts =>
    match DeviceKind.fromName (rustTrim t) with
    | Except.error e => Except.error e
    | Except.ok k => fromStrGo (btreeInsert set k) ts

/-- `impl FromStr for DeviceKindSet`: split on `,`, trim each token, resolve
each token, propagate the first error. -/
def DeviceKindSet.fromStr (s : String) : Except ParseError DeviceKindSet :=
  match fromStrGo [] (rustSplit s) with
  | Except.error e => Except.error e
  | Except.ok set => Except.ok ⟨set⟩

/-- The serde-serialized `WaybarOutput` record (the Rust field `class` is
`cssClass` here, `class` being a Lean keyword). -/
structure WaybarOutput where
  text : String
  tooltip : Option String
  cssClass : Option String
  percentage : Option ℚ
deriving DecidableEq, Repr

/-- The field names serde_json emits for a record: every field in declaration
order, the three `Option` fields skipped exactly when `None`
(`skip_serializing_if = "Option::is_none"`). -/
def WaybarOutput.serializedFields (w : WaybarOutput) : List String :=
  ["text"]
    ++ (if w.tooltip.isSome then ["tooltip"] else [])
    ++ (if w.cssClass.isSome then ["class"] else [])
    ++ (if w.percentage.isSome then ["percentage"] else [])

/-- Rust `f64` `Display` as used by `format!("{percentage}%")`, modelled on
`ℚ`: exact on integral values (`15.0` prints as `"15"`); non-integral values
are idealized by the rational's own representation. -/
def fmtF64 (q : ℚ) : String :=
  if q.den = 1 then toString q.num else toString q.num ++ "/" ++ toString q.den

/-- The command-line configuration `Opt` (the clap-parsed fields used by the
refresh cycle; `refresh` is a duration in milliseconds). -/
structure Opt where
  kinds : DeviceKindSet
  low_class : String
  low_percentage : ℚ
  listen : Bool
  refresh : Nat
deriving DecidableEq, Repr

/-- `Opt::output`: build the `WaybarOutput` for one device snapshot. -/
def Opt.output (opt : Opt) (percentage : ℚ) (model : String) : WaybarOutput :=
  { text := fmtF64 percentage ++ "%"
    tooltip := some model
    cssClass :=
      if percentage ≤ opt.low_percentage then some opt.low_class else none
    percentage := some percentage }

/-- One stdout line of `output_devices`: a serialized `WaybarOutput` record or
the bare blank line. -/
inductive Line
  | record (w : WaybarOutput)
  | blank
deriving DecidableEq, Repr

deriving instance DecidableEq for Except

/-- A device handle as `output_devices` interrogates it: the result of
`DeviceProxy::new`, of the `Type` property query, of `model()`, and of
`percentage()`. -/
structure Device where
  newProxy : Except DBusError Unit
  typeProp : Except DBusError Nat
  model : Except DBusError String
  percentage : Except DBusError ℚ
deriving DecidableEq, Repr

/-- A device all of whose queries succeed, with the given type code, model
and percentage. -/
def Device.pure (code : Nat) (model : String) (pct : ℚ) : Device :=
  ⟨Except.ok (), Except.ok code, Except.ok model, Except.ok pct⟩

/-- The per-device loop of `output_devices`: for each device build the proxy,
query `Type` and `model`, and only for devices passing the kind filter query
`percentage` and print the record; any `?` failure stops the loop, keeping
the lines already printed.  Returns (lines printed, final result). -/
def outputDevicesGo (opt : Opt) :
    List Device → Nat → List Line → List Line × Except DBusError Unit
  | [], seen, lines =>
    (if seen = 0 then lines ++ [Line.blank] else lines, Except.ok ())
  | d :: ds, seen, lines =>
    match d.newProxy with
    | Except.error e => (lines, Except.error e)
    | Except.ok _ =>
      match d.typeProp with
      | Except.error e => (lines, Except.error e)
      | Except.ok code =>
        match d.model with
        | Except.error e => (lines, Except.error e)
        | Except.ok model =>
          if opt.kinds.contains (DeviceKind.fromCode code) then
            match d.percentage with
            | Except.error e => (lines, Except.error e)
            | Except.ok pct =>
              outputDevicesGo opt ds (seen + 1)
                (lines ++ [Line.record (opt.output pct model)])
          else outputDevicesGo opt ds seen lines

/-- `output_devices`: enumerate (`enum` is the result of
`upower.enumerate_devices()`), run the per-device loop from zero devices
seen, and print one blank line when no device matched. -/
def outputDevices (opt : Opt) (enum : Except DBusError (List Device)) :
    List Line × Except DBusError Unit :=
  match enum with
  | Except.error e => ([], Except.error e)
  | Except.ok ds => outputDevicesGo opt ds 0 []

/-- Which branch of the `select!` race won one wait of the listen loop. -/
inductive Wake
  | signal
  | timer
  | ctrlC
deriving DecidableEq, Repr

/-- Outcome of running the listen loop over an observed sequence of wakes,
carrying the number of refresh cycles the loop itself ran. -/
inductive LoopResult
  | cancelled (cyclesRun : Nat)
  | failed (e : DBusError) (cyclesRun : Nat)
  | pending (cyclesRun : Nat)
deriving DecidableEq, Repr

/-- The `loop { select! { … } }` of `main`: a `signal` or `timer` wake runs
`output_devices` (the oracle `cycle n` is the result of its n-th in-loop
invocation), `?`-propagating any error; a `ctrlC` wake breaks out.
`pending` means the observed wake sequence ended with the loop still
waiting. -/
def listenLoop (cycle : Nat → Except DBusError Unit) :
    List Wake → Nat → LoopResult
  | [], n => LoopResult.pending n
  | w :: ws, n =>
    match w with
    | Wake.ctrlC => LoopResult.cancelled n
    | _ =>
      match cycle n with
      | Except.error e => LoopResult.failed e n
      | Except.ok _ => listenLoop cycle ws (n + 1)

/-- Result of `main` as the Rust runtime sees it: `anyhow::Result<()>`. -/
inductive MainResult
  | ok
  | err (e : DBusError)
deriving DecidableEq, Repr

/-- The process exit code the Rust runtime derives from
`main() -> anyhow::Result<()>`: 0 on `Ok`, 1 on `Err`. -/
def exitCode : MainResult → Nat
  | MainResult.ok => 0
  | MainResult.err _ => 1

/-- `main` after argument parsing and connection setup: run `output_devices`
once (`cycle 0`), then when `--listen` is set enter the listen loop whose
n-th cycle is `cycle (n + 1)`.  `none` means the loop is still running when
the observed wake sequence ends. -/
def mainRun (listen : Bool) (cycle : Nat → Except DBusError Unit)
    (wakes : List Wake) : Option MainResult :=
  match cycle 0 with
  | Except.error e => some (MainResult.err e)
  | Except.ok _ =>
    if listen then
      match listenLoop (fun n => cycle (n + 1)) wakes 0 with
      | LoopResult.cancelled _ => some MainResult.ok
      | LoopResult.failed e _ => some (MainResult.err e)
      | LoopResult.pending _ => none
    else some MainResult.ok

/-- The `Opt` produced by the documented clap defaults: kinds
`"headset, headphones"`, low class `"low"`, low percentage 20, one-shot
mode, 15 s refresh. -/
def optDefault : Opt :=
  { kinds := ⟨[DeviceKind.Headset, DeviceKind.Headphones]⟩
    low_class := "low"
    low_percentage := 20
    listen := false
    refresh := 15000 }

/-! ### Helper lemmas -/

lemma kind_code_inj : ∀ a b : DeviceKind, a.code = b.code → a = b := by decide

lemma kind_code_lt : ∀ k : DeviceKind, k.code < 30 := by decide

lemma fromName_canonical :
    ∀ k : DeviceKind, DeviceKind.fromName k.canonicalName = Except.ok k := by
  decide

lemma fromName_ok_iff {s : String} {k : DeviceKind} :
    DeviceKind.fromName s = Except.ok k ↔ s = k.canonicalName := by
  constructor
  · intro h
    unfold DeviceKind.fromName at h
    cases hf : DeviceKind.all.find? (fun k => k.canonicalName = s) with
    | none => rw [hf] at h; exact Except.noConfusion h
    | some k0 =>
      rw [hf] at h
      have hk : k0 = k := Except.ok.inj h
      subst hk
      have h2 := List.find?_some hf
      simp only [decide_eq_true_eq] at h2
      exact h2.symm
  · intro h
    subst h
    exact fromName_canonical k

lemma mem_btreeInsert (k k' : DeviceKind) :
    ∀ s : List DeviceKind, k' ∈ btreeInsert s k ↔ k' = k ∨ k' ∈ s := by
  intro s
  induction s with
  | nil => simp [btreeInsert]
  | cons x xs ih =>
    simp only [btreeInsert]
    split
    · simp [List.mem_cons]
    · split
      · rename_i h1 h2
        have hx : k = x := kind_code_inj _ _ h2
        subst hx
        simp [List.mem_cons]
      · simp only [List.mem_cons, ih]
        tauto

lemma DeviceKindSet.contains_iff (s : DeviceKindSet) (k : DeviceKind) :
    s.contains k = true ↔ k ∈ s.kinds := by
  simp [DeviceKindSet.contains, List.contains, List.elem_iff]

lemma fromStrGo_ok (ts : List String) :
    ∀ set : List DeviceKind,
    (∀ t ∈ ts, ∃ k : DeviceKind,
      DeviceKind.fromName (rustTrim t) = Except.ok k) →
    ∃ r, fromStrGo set ts = Except.ok r ∧
      ∀ k : DeviceKind, k ∈ r ↔
        (k ∈ set ∨ ∃ t ∈ ts, DeviceKind.fromName (rustTrim t) = Except.ok k) := by
  induction ts with
  | nil =>
    intro set _
    exact ⟨set, rfl, by simp⟩
  | cons t ts ih =>
    intro set h
    obtain ⟨k0, hk0⟩ := h t (List.mem_cons_self t ts)
    obtain ⟨r, hr, hmem⟩ :=
      ih (btreeInsert set k0) (fun t' ht' => h t' (List.mem_cons_of_mem t ht'))
    refine ⟨r, by simp only [fromStrGo, hk0]; exact hr, fun k => ?_⟩
    rw [hmem k, mem_btreeInsert]
    have hP : DeviceKind.fromName (rustTrim t) = Except.ok k ↔ k = k0 :=
      ⟨fun hh => (Except.ok.inj (hk0 ▸ hh)).symm, fun hh => hh ▸ hk0⟩
    constructor
    · rintro ((rfl | hs) | ⟨t', ht', he⟩)
      · exact Or.inr ⟨t, List.mem_cons_self t ts, hP.mpr rfl⟩
      · exact Or.inl hs
      · exact Or.inr ⟨t', List.mem_cons_of_mem t ht', he⟩
    · rintro (hs | ⟨t', ht', he⟩)
      · exact Or.inl (Or.inr hs)
      · rcases List.mem_cons.mp ht' with rfl | hmem2
        · exact Or.inl (Or.inl (hP.mp he))
        · exact Or.inr ⟨t', hmem2, he⟩

lemma fromStrGo_error (ts : List String) :
    ∀ set : List DeviceKind,
    (∃ t ∈ ts, DeviceKind.fromName (rustTrim t)
      = Except.error ParseError.VariantNotFound) →
    fromStrGo set ts = Except.error ParseError.VariantNotFound := by
  induction ts with
  | nil =>
    intro set h
    obtain ⟨t, ht, _⟩ := h
    exact absurd ht (List.not_mem_nil t)
  | cons t ts ih =>
    intro set h
    simp only [fromStrGo]
    cases hk : DeviceKind.fromName (rustTrim t) with
    | error e => cases e; rfl
    | ok k =>
      obtain ⟨t', ht', he⟩ := h
      rcases List.mem_cons.mp ht' with rfl | hmem
      · rw [hk] at he
        exact Except.noConfusion he
      · exact ih _ ⟨t', hmem, he⟩

/-- Matching predicate of the cycle, on a (code, model, percentage) triple. -/
def matchesOpt (opt : Opt) (p : Nat × String × ℚ) : Bool :=
  opt.kinds.contains (DeviceKind.fromCode p.1)

/-- The record the cycle prints for a (code, model, percentage) triple. -/
def recordOf (opt : Opt) (p : Nat × String × ℚ) : Line :=
  Line.record (opt.output p.2.2 p.2.1)

/-- Turn a (code, model, percentage) triple into a fully-successful device. -/
def pureDevice (p : Nat × String × ℚ) : Device :=
  Device.pure p.1 p.2.1 p.2.2

lemma outputDevicesGo_append_pure (opt : Opt) (ds : List (Nat × String × ℚ)) :
    ∀ (rest : List Device) (seen : Nat) (lines : List Line),
    outputDevicesGo opt (ds.map pureDevice ++ rest) seen lines
      = outputDevicesGo opt rest (seen + (ds.filter (matchesOpt opt)).length)
          (lines ++ (ds.filter (matchesOpt opt)).map (recordOf opt)) := by
  induction ds with
  | nil =>
    intro rest seen lines
    simp
  | cons p ps ih =>
    intro rest seen lines
    obtain ⟨c, m, q⟩ := p
    by_cases hc : opt.kinds.contains (DeviceKind.fromCode c) = true
    · have hm : matchesOpt opt (c, m, q) = true := hc
      simp only [List.map_cons, List.cons_append, outputDevicesGo, pureDevice,
        Device.pure, hc, if_true, List.filter_cons, hm, List.map_cons,
        List.length_cons, List.append_eq]
      rw [ih rest (seen + 1) (lines ++ [Line.record (opt.output q m)])]
      have hlen : seen + 1 + (List.filter (matchesOpt opt) ps).length
          = seen + ((List.filter (matchesOpt opt) ps).length + 1) := by omega
      rw [hlen]
      have hline : lines ++ [Line.record (opt.output q m)]
            ++ List.map (recordOf opt) (List.filter (matchesOpt opt) ps)
          = lines ++ recordOf opt (c, m, q)
            :: List.map (recordOf opt) (List.filter (matchesOpt opt) ps) := by
        simp [recordOf]
      rw [hline]
    · have hm : matchesOpt opt (c, m, q) = false := by
        simpa [matchesOpt] using hc
      simp only [List.map_cons, List.cons_append, outputDevicesGo, pureDevice,
        Device.pure, hc, if_false, List.filter_cons, hm, List.append_eq]
      exact ih rest seen lines

lemma outputDevices_ok_eq (opt : Opt) (ds : List Device) :
    outputDevices opt (Except.ok ds) = outputDevicesGo opt ds 0 [] := rfl

/-! ### Claims -/

/-- C1 (counterexample): the token `"HEADSET"` matches the canonical name
`"headset"` case-insensitively after trimming, so under the claim
`DeviceKindSet.parse` would succeed on it — yet the derived `from_str` is
case-sensitive and `DeviceKindSet::from_str "HEADSET"` fails with
`VariantNotFound`. -/
theorem c1_counterexample :
    rustSplit "HEADSET" = ["HEADSET"]
    ∧ asciiLower (rustTrim "HEADSET") = DeviceKind.Headset.canonicalName
    ∧ DeviceKindSet.fromStr "HEADSET"
        = Except.error ParseError.VariantNotFound := by
  refine ⟨by decide, by decide, by decide⟩

/-- C1 (amended): for every comma-separated string each of whose tokens,
after trimming, equals a canonical kind name exactly (case-SENSITIVELY),
`DeviceKindSet::from_str` succeeds and the resulting filter matches exactly
the kinds named by the tokens and no other `DeviceKind`. -/
theorem c1_theorem (s : String)
    (h : ∀ t ∈ rustSplit s, ∃ k : DeviceKind,
      rustTrim t = DeviceKind.canonicalName k) :
    ∃ f : DeviceKindSet, DeviceKindSet.fromStr s = Except.ok f ∧
      ∀ k : DeviceKind, (f.contains k = true ↔
        ∃ t ∈ rustSplit s, rustTrim t = DeviceKind.canonicalName k) := by
  have h' : ∀ t ∈ rustSplit s, ∃ k : DeviceKind,
      DeviceKind.fromName (rustTrim t) = Except.ok k := by
    intro t ht
    obtain ⟨k, hk⟩ := h t ht
    exact ⟨k, fromName_ok_iff.mpr hk⟩
  obtain ⟨r, hr, hmem⟩ := fromStrGo_ok (rustSplit s) [] h'
  refine ⟨⟨r⟩, by simp only [DeviceKindSet.fromStr, hr], fun k => ?_⟩
  rw [DeviceKindSet.contains_iff, hmem k]
  simp only [List.not_mem_nil, false_or]
  constructor <;> rintro ⟨t, ht, he⟩
  · exact ⟨t, ht, fromName_ok_iff.mp he⟩
  · exact ⟨t, ht, fromName_ok_iff.mpr he⟩

/-- C1 (witness): the default filter string `"headset, headphones"` parses,
and the resulting filter matches exactly the kinds named by its tokens. -/
theorem c1_witness :
    (∀ t ∈ rustSplit "headset, headphones", ∃ k : DeviceKind,
      rustTrim t = DeviceKind.canonicalName k)
    ∧ ∃ f : DeviceKindSet,
        DeviceKindSet.fromStr "headset, headphones" = Except.ok f ∧
        ∀ k : DeviceKind, (f.contains k = true ↔
          ∃ t ∈ rustSplit "headset, headphones",
            rustTrim t = DeviceKind.canonicalName k) :=
  ⟨by decide, c1_theorem "headset, headphones" (by decide)⟩

/-- C5 (counterexample): parsing the empty string does not succeed — it
returns `VariantNotFound`, because splitting `""` on commas yields the single
empty token, which resolves to no kind. -/
theorem c5_counterexample :
    DeviceKindSet.fromStr "" = Except.error ParseError.VariantNotFound := by
  decide

/-- C5 (amended): the empty string is NOT accepted input: `str::split(',')`
on `""` produces one empty token, the empty token names no kind, and
`DeviceKindSet::from_str ""` therefore fails with `VariantNotFound` instead
of yielding an empty filter. -/
theorem c5_theorem :
    rustSplit "" = [""]
    ∧ DeviceKind.fromName (rustTrim "") = Except.error ParseError.VariantNotFound
    ∧ DeviceKindSet.fromStr "" = Except.error ParseError.VariantNotFound := by
  refine ⟨by decide, by decide, by decide⟩

/-- C10: whenever some comma-separated token of the input trims to the empty
string (trailing comma, adjacent commas, whitespace-only input), the parse
returns `VariantNotFound` — empty tokens are never silently skipped. -/
theorem c10_theorem (s : String)
    (h : ∃ t ∈ rustSplit s, rustTrim t = "") :
    DeviceKindSet.fromStr s = Except.error ParseError.VariantNotFound := by
  have h' : ∃ t ∈ rustSplit s,
      DeviceKind.fromName (rustTrim t) = Except.error ParseError.VariantNotFound := by
    obtain ⟨t, ht, he⟩ := h
    refine ⟨t, ht, ?_⟩
    rw [he]
    decide
  rw [DeviceKindSet.fromStr, fromStrGo_error (rustSplit s) [] h']

/-- C10 (witness): `"headset,"` has a trailing empty token and fails to
parse. -/
theorem c10_witness :
    (∃ t ∈ rustSplit "headset,", rustTrim t = "")
    ∧ DeviceKindSet.fromStr "headset,"
        = Except.error ParseError.VariantNotFound :=
  ⟨by decide, c10_theorem "headset," (by decide)⟩

/-- C4 (counterexample): formatting a snapshot with an empty model yields
`tooltip = Some("")`, which serde serializes (the skip applies only to
`None`): the tooltip field is present as an empty string, not absent as the
claim states. -/
theorem c4_counterexample :
    (optDefault.output 50 "").tooltip = some ""
    ∧ (optDefault.output 50 "").tooltip ≠ none
    ∧ "tooltip" ∈ (optDefault.output 50 "").serializedFields := by
  refine ⟨by decide, by decide, by decide⟩

/-- C4 (amended): `Opt::output` always sets `tooltip = Some(model)`, even
when the model string is empty, so the tooltip field is always present in
the serialized output and carries the model verbatim. -/
theorem c4_theorem (opt : Opt) (p : ℚ) (m : String) :
    (opt.output p m).tooltip = some m
    ∧ "tooltip" ∈ (opt.output p m).serializedFields := by
  refine ⟨rfl, ?_⟩
  simp [Opt.output, WaybarOutput.serializedFields]

/-- C7: `DeviceKind::from_u32(n).unwrap_or_default()` is total — it returns
the variant with discriminant `n` for each of the 30 defined codes 0–29
(round-tripping every variant), and `Unknown` for every code ≥ 30. -/
theorem c7_theorem :
    (∀ k : DeviceKind, DeviceKind.fromCode k.code = k)
    ∧ (∀ n : Fin 30, (DeviceKind.fromCode n.val).code = n.val)
    ∧ (∀ n : Nat, 30 ≤ n → DeviceKind.fromCode n = DeviceKind.Unknown) := by
  refine ⟨by decide, by decide, fun n hn => ?_⟩
  have hnone : DeviceKind.fromU32 n = none := by
    rw [DeviceKind.fromU32, List.find?_eq_none]
    intro k _
    simp only [decide_eq_true_eq]
    have := kind_code_lt k
    omega
  simp [DeviceKind.fromCode, hnone]

/-- C7 (witness): the out-of-range code 999 maps to `Unknown`. -/
theorem c7_witness :
    30 ≤ 999 ∧ DeviceKind.fromCode 999 = DeviceKind.Unknown :=
  ⟨by norm_num, c7_theorem.2.2 999 (by norm_num)⟩

/-- C8: the CSS class is the configured low class exactly when
`percentage <= low_percentage` (boundary included) and absent otherwise, the
percentage field mirrors the input; on the spec's configuration
(threshold 20, class `"low"`) formatting 15 yields
`{text: "15%", tooltip: "ModelX", class: "low", percentage: 15}` and
formatting 85 the same shape with the class absent. -/
theorem c8_theorem (opt : Opt) (p : ℚ) (m : String) :
    ((opt.output p m).cssClass
      = if p ≤ opt.low_percentage then some opt.low_class else none)
    ∧ (opt.output p m).percentage = some p
    ∧ optDefault.output 15 "ModelX"
        = ⟨"15%", some "ModelX", some "low", some 15⟩
    ∧ optDefault.output 85 "ModelX"
        = ⟨"85%", some "ModelX", none, some 85⟩ := by
  refine ⟨rfl, rfl, by decide, by decide⟩

/-- C2: when every query succeeds, the cycle writes exactly the records of
the kind-matching devices, one newline-terminated record per device in
enumeration order, and exactly one blank line (with no records) when no
device matches. -/
theorem c2_theorem (opt : Opt) (ds : List (Nat × String × ℚ)) :
    outputDevices opt (Except.ok (ds.map pureDevice))
      = (if ds.filter (matchesOpt opt) = []
         then [Line.blank]
         else (ds.filter (matchesOpt opt)).map (recordOf opt),
         Except.ok ()) := by
  rw [outputDevices_ok_eq]
  have h := outputDevicesGo_append_pure opt ds [] 0 []
  rw [List.append_nil] at h
  rw [h]
  by_cases hf : ds.filter (matchesOpt opt) = []
  · simp [outputDevicesGo, hf]
  · have hlen : (ds.filter (matchesOpt opt)).length ≠ 0 := by
      simpa [List.length_eq_zero] using hf
    simp [outputDevicesGo, hf, hlen]

/-- C6 (counterexample): a non-matching device (code 5 = mouse, not in the
default headset/headphones filter) whose percentage query would fail does
NOT abort the cycle — the cycle completes successfully with a blank line,
because `output_devices` only queries the percentage after the kind filter
has passed. -/
theorem c6_counterexample :
    optDefault.kinds.contains (DeviceKind.fromCode 5) = false
    ∧ outputDevices optDefault (Except.ok
        [⟨Except.ok (), Except.ok 5, Except.ok "m",
          Except.error (DBusError.err 0)⟩])
      = ([Line.blank], Except.ok ()) := by
  refine ⟨by decide, by decide⟩

/-- C6 (amended): for each enumerated device the type code and the model are
queried before the kind filter is applied — a type-query failure, and a
model-query failure, abort the cycle even for a non-matching device — but
the percentage is queried only for devices that pass the filter: a
percentage failure aborts the cycle only for matching devices, and a
non-matching device is skipped without its percentage ever being queried. -/
theorem c6_theorem (opt : Opt) (pre : List (Nat × String × ℚ)) (d : Device)
    (ds : List Device) (c : Nat) (m : String) (e : DBusError)
    (hp : d.newProxy = Except.ok ()) :
    (d.typeProp = Except.error e →
      outputDevices opt (Except.ok (pre.map pureDevice ++ d :: ds))
        = ((pre.filter (matchesOpt opt)).map (recordOf opt), Except.error e))
    ∧ (d.typeProp = Except.ok c → d.model = Except.error e →
        outputDevices opt (Except.ok (pre.map pureDevice ++ d :: ds))
          = ((pre.filter (matchesOpt opt)).map (recordOf opt), Except.error e))
    ∧ (d.typeProp = Except.ok c → d.model = Except.ok m →
        opt.kinds.contains (DeviceKind.fromCode c) = true →
        d.percentage = Except.error e →
        outputDevices opt (Except.ok (pre.map pureDevice ++ d :: ds))
          = ((pre.filter (matchesOpt opt)).map (recordOf opt), Except.error e))
    ∧ (d.typeProp = Except.ok c → d.model = Except.ok m →
        opt.kinds.contains (DeviceKind.fromCode c) = false →
        outputDevices opt (Except.ok (pre.map pureDevice ++ d :: ds))
          = outputDevices opt (Except.ok (pre.map pureDevice ++ ds))) := by
  have hgo := outputDevicesGo_append_pure opt pre (d :: ds) 0 []
  rw [List.nil_append] at hgo
  refine ⟨fun htE => ?_, fun ht hmod => ?_, fun ht hmod hmatch hpct => ?_,
    fun ht hmod hmatch => ?_⟩
  · rw [outputDevices_ok_eq, hgo]
    simp only [outputDevicesGo, hp, htE]
  · rw [outputDevices_ok_eq, hgo]
    simp only [outputDevicesGo, hp, ht, hmod]
  · rw [outputDevices_ok_eq, hgo]
    simp only [outputDevicesGo, hp, ht, hmod, hmatch, if_true, hpct]
  · have hgo2 := outputDevicesGo_append_pure opt pre ds 0 []
    rw [List.nil_append] at hgo2
    rw [outputDevices_ok_eq, hgo, outputDevices_ok_eq, hgo2]
    simp only [outputDevicesGo, hp, ht, hmod, hmatch, Bool.false_eq_true,
      if_false]

/-- C6 (witness): a matching device (code 17 = headset, in the default
filter) whose percentage query fails aborts the cycle with that error. -/
theorem c6_witness :
    (Device.mk (Except.ok ()) (Except.ok 17) (Except.ok "M")
        (Except.error (DBusError.err 3))).newProxy = Except.ok ()
    ∧ outputDevices optDefault (Except.ok
        [Device.mk (Except.ok ()) (Except.ok 17) (Except.ok "M")
          (Except.error (DBusError.err 3))])
      = ([], Except.error (DBusError.err 3)) :=
  ⟨rfl,
    (c6_theorem optDefault []
        (Device.mk (Except.ok ()) (Except.ok 17) (Except.ok "M")
          (Except.error (DBusError.err 3)))
        [] 17 "M" (DBusError.err 3) rfl).2.2.1 rfl rfl (by decide) rfl⟩

/-- C3: an enumeration failure yields no output and the error; every
per-device failure — the proxy handle, the `Type` property query, the model
query, and (for a matching device) the percentage query — aborts the cycle
keeping only the records already emitted; in continuous mode a failing
cycle makes the loop return that error at once, with no retry (the cycle
count stays at the failing index), and `main` then terminates with exit
code 1. -/
theorem c3_theorem (opt : Opt) (e : DBusError)
    (pre : List (Nat × String × ℚ)) (d : Device) (ds : List Device)
    (c : Nat) (m : String)
    (cycle : Nat → Except DBusError Unit) (w : Wake) (ws : List Wake)
    (n : Nat)
    (hw : w ≠ Wake.ctrlC) (hc : cycle n = Except.error e) :
    outputDevices opt (Except.error e) = ([], Except.error e)
    ∧ (d.newProxy = Except.error e →
        outputDevices opt (Except.ok (pre.map pureDevice ++ d :: ds))
          = ((pre.filter (matchesOpt opt)).map (recordOf opt), Except.error e))
    ∧ (d.newProxy = Except.ok () → d.typeProp = Except.error e →
        outputDevices opt (Except.ok (pre.map pureDevice ++ d :: ds))
          = ((pre.filter (matchesOpt opt)).map (recordOf opt), Except.error e))
    ∧ (d.newProxy = Except.ok () → d.typeProp = Except.ok c →
        d.model = Except.error e →
        outputDevices opt (Except.ok (pre.map pureDevice ++ d :: ds))
          = ((pre.filter (matchesOpt opt)).map (recordOf opt), Except.error e))
    ∧ (d.newProxy = Except.ok () → d.typeProp = Except.ok c →
        d.model = Except.ok m →
        opt.kinds.contains (DeviceKind.fromCode c) = true →
        d.percentage = Except.error e →
        outputDevices opt (Except.ok (pre.map pureDevice ++ d :: ds))
          = ((pre.filter (matchesOpt opt)).map (recordOf opt), Except.error e))
    ∧ listenLoop cycle (w :: ws) n = LoopResult.failed e n
    ∧ (∀ (cyc : Nat → Except DBusError Unit) (wakes : List Wake) (j : Nat),
        cyc 0 = Except.ok () →
        listenLoop (fun i => cyc (i + 1)) wakes 0 = LoopResult.failed e j →
        mainRun true cyc wakes = some (MainResult.err e)
        ∧ exitCode (MainResult.err e) = 1) := by
  have hgo := outputDevicesGo_append_pure opt pre (d :: ds) 0 []
  rw [List.nil_append] at hgo
  refine ⟨rfl, fun hd => ?_, fun hp htE => ?_, fun hp ht hmod => ?_,
    fun hp ht hmod hmatch hpct => ?_, ?_, ?_⟩
  · rw [outputDevices_ok_eq, hgo]
    simp only [outputDevicesGo, hd]
  · rw [outputDevices_ok_eq, hgo]
    simp only [outputDevicesGo, hp, htE]
  · rw [outputDevices_ok_eq, hgo]
    simp only [outputDevicesGo, hp, ht, hmod]
  · rw [outputDevices_ok_eq, hgo]
    simp only [outputDevicesGo, hp, ht, hmod, hmatch, if_true, hpct]
  · cases w with
    | ctrlC => exact absurd rfl hw
    | signal => simp [listenLoop, hc]
    | timer => simp [listenLoop, hc]
  · intro cyc wakes j h0 hl
    refine ⟨?_, rfl⟩
    simp only [mainRun, h0, if_true, hl]

/-- C3 (witness): an enumeration failure, and a `Type` property-query
failure on the sole enumerated device, each end the cycle with that error;
the in-loop refresh fails at once and `main` exits non-zero. -/
theorem c3_witness :
    Wake.timer ≠ Wake.ctrlC
    ∧ (fun _ : Nat => (Except.error (DBusError.err 7) :
        Except DBusError Unit)) 0 = Except.error (DBusError.err 7)
    ∧ outputDevices optDefault (Except.error (DBusError.err 7))
        = ([], Except.error (DBusError.err 7))
    ∧ outputDevices optDefault (Except.ok
        [Device.mk (Except.ok ()) (Except.error (DBusError.err 7))
          (Except.ok "") (Except.ok 0)])
        = ([], Except.error (DBusError.err 7))
    ∧ listenLoop (fun _ => Except.error (DBusError.err 7)) [Wake.timer] 0
        = LoopResult.failed (DBusError.err 7) 0
    ∧ mainRun true
        (fun i => if i = 0 then Except.ok ()
          else Except.error (DBusError.err 7)) [Wake.timer]
        = some (MainResult.err (DBusError.err 7))
    ∧ exitCode (MainResult.err (DBusError.err 7)) = 1 := by
  have thm := c3_theorem optDefault (DBusError.err 7) []
    (Device.mk (Except.ok ()) (Except.error (DBusError.err 7)) (Except.ok "")
      (Except.ok 0))
    [] 0 "" (fun _ => Except.error (DBusError.err 7)) Wake.timer [] 0
    (by decide) rfl
  have hmain := thm.2.2.2.2.2.2
    (fun i => if i = 0 then Except.ok () else Except.error (DBusError.err 7))
    [Wake.timer] 0 rfl rfl
  exact ⟨by decide, rfl, thm.1, thm.2.2.1 rfl rfl, thm.2.2.2.2.2.1,
    hmain.1, hmain.2⟩

/-- C9: when the cancellation branch wins the race while the loop is
waiting, the loop terminates at once — the in-loop cycle count is unchanged,
no further `output_devices` runs — and `main` returns `Ok`, so the process
exit code is 0. -/
theorem c9_theorem (cycle : Nat → Except DBusError Unit) (ws : List Wake)
    (n : Nat) (h0 : cycle 0 = Except.ok ()) :
    listenLoop (fun j => cycle (j + 1)) (Wake.ctrlC :: ws) n
        = LoopResult.cancelled n
    ∧ mainRun true cycle (Wake.ctrlC :: ws) = some MainResult.ok
    ∧ exitCode MainResult.ok = 0 := by
  refine ⟨rfl, ?_, rfl⟩
  simp only [mainRun, h0, if_true]
  rfl

/-- C9 (witness): with an immediately-delivered cancellation the loop is
cancelled after zero in-loop cycles and the exit is clean. -/
theorem c9_witness :
    (fun _ : Nat => (Except.ok () : Except DBusError Unit)) 0 = Except.ok ()
    ∧ (listenLoop (fun _ => (Except.ok () : Except DBusError Unit))
          [Wake.ctrlC] 0 = LoopResult.cancelled 0
       ∧ mainRun true (fun _ => Except.ok ()) [Wake.ctrlC]
          = some MainResult.ok
       ∧ exitCode MainResult.ok = 0) :=
  ⟨rfl, c9_theorem (fun _ => Except.ok ()) [] 0 rfl⟩
